import Mathlib

/-!
Shallow embedding of `param_tuning.py` and `svm_tuning.py`
(repository `param_tuning_utility`).

Python dictionaries are modelled as association lists (`Dict`) with
Python's insertion semantics: assigning to an existing key updates it in
place, assigning to a fresh key appends it.  Python scalars are modelled
by `Scalar` (floats as rationals: every float literal in the source is a
short decimal).  Estimators, fold splitters and the search back ends
(GridSearchCV, RandomizedSearchCV, BayesianOptimization, cross_val_score)
are external collaborators; they are modelled abstractly: the data handed
to them is recorded in explicit "back-end call" structures, and their
results (the selected best grid point, the optimizer's best point, the
fold scores) are parameters of the embedding, constrained by hypotheses
where a claim needs them.
-/

namespace PTSpec

/-- A Python scalar value: int, float (as an exact rational; all float
literals in the source are short decimals) or string. -/
inductive Scalar where
  | int : Int → Scalar
  | num : ℚ → Scalar
  | str : String → Scalar
deriving DecidableEq, Repr

/-- A value stored in one of the parameter dictionaries of the source:
a scalar, a list of candidate scalars (grid/random search), or a
`(low, high)` continuous bound (Bayesian search). -/
inductive PValue where
  | scalar : Scalar → PValue
  | list : List Scalar → PValue
  | range : ℚ → ℚ → PValue
deriving DecidableEq, Repr

/-- A Python dict with string keys, as an association list in insertion
order. -/
abbrev Dict := List (String × PValue)

/-- `d[k]` lookup (first, and by the `Dict.insert` invariant only,
binding of `k`). -/
def Dict.get (d : Dict) (k : String) : Option PValue :=
  match d.find? (fun p => p.1 = k) with
  | some p => some p.2
  | none => none

/-- `k in d`. -/
def Dict.hasKey (d : Dict) (k : String) : Bool :=
  d.any (fun p => p.1 = k)

/-- `d[k] = v`: update in place if the key exists, append otherwise
(Python dict assignment). -/
def Dict.insert (d : Dict) (k : String) (v : PValue) : Dict :=
  if Dict.hasKey d k then d.map (fun p => if p.1 = k then (k, v) else p)
  else d ++ [(k, v)]

/-- `d.update(e)` (Python `dict.update`). -/
def Dict.update (d e : Dict) : Dict :=
  e.foldl (fun acc p => Dict.insert acc p.1 p.2) d

/-- The keys of a dict, in order. -/
def Dict.keys (d : Dict) : List String :=
  d.map (fun p => p.1)

/-- An estimator: either a bare learner or a named preprocessing
pipeline (list of step names, the learner step last) — the two shapes
occurring in the source (`SVR`/`SVC` wrapped as
`Pipeline([("scaler", ...), ("svr", SVR())])`). -/
inductive Estimator where
  | plain : String → Estimator
  | pipeline : List String → Estimator
deriving DecidableEq, Repr

/-- A `KFold(n_splits=…, shuffle=…, random_state=…)` splitter. -/
structure KFoldSplit where
  n_splits : Int
  shuffle : Bool
  random_state : Option Int
deriving DecidableEq, Repr

/-- A cross-validation splitter object: a `KFold`, or any other splitter
object supplied by the caller (opaque to this layer, passed through). -/
inductive Splitter where
  | kfold : KFoldSplit → Splitter
  | other : String → Splitter
deriving DecidableEq, Repr

/-- The `cv` argument of the search methods: a plain fold count or an
already-built splitter object. -/
inductive CVArg where
  | num : Int → CVArg
  | split : Splitter → CVArg
deriving DecidableEq, Repr

/-- A feature matrix (ndarray): the column count is part of the value,
as for a numpy array (`X.shape[1]` is defined even with zero rows). -/
structure Matrix2D where
  ncols : Nat
  rows : List (List ℚ)
deriving DecidableEq, Repr

/-- The record of one estimator fit on the full dataset (the best-model
refit): which estimator, with which parameter set, on which data, with
which fit-time parameters.  The fitted per-feature importance attribute
is an attribute of the fitted object and is modelled as a function
`FittedModel → List ℚ` where needed. -/
structure FittedModel where
  model : Estimator
  params : Dict
  X : Matrix2D
  y : List ℚ
  fit_params : Dict
deriving DecidableEq, Repr

/-- The class-level configuration constants of one model-family subclass
of `ParamTuning` (`SEED`, `CV_NUM`, `CV_MODEL`, …). -/
structure FamilyConfig where
  SEED : Int
  CV_NUM : Int
  CV_MODEL : Estimator
  FIT_PARAMS : Dict
  SCORING : Option String
  NOT_OPT_PARAMS : Dict
  CV_PARAMS_GRID : Dict
  N_ITER_RANDOM : Int
  CV_PARAMS_RANDOM : Dict
  N_ITER_BAYES : Int
  INIT_POINTS : Int
  ACQ : String
  BAYES_PARAMS : Dict
  INT_PARAMS : List String
  BAYES_NOT_OPT_PARAMS : Dict
deriving DecidableEq, Repr

/-- The mutable instance state of a `ParamTuning` object.  `scoring` is
wrapped in an extra `Option` because `__init__` does not set it at all
(outer `none` = attribute absent). -/
structure TunerState where
  X : Matrix2D
  y : List ℚ
  X_colnames : List String
  y_colname : Option String
  tuning_params : Option Dict
  bayes_not_opt_params : Option Dict
  seed : Option Int
  cv : Option Splitter
  scoring : Option (Option String)
  fit_params : Option Dict
  best_estimator_ : Option FittedModel
deriving DecidableEq, Repr

/-- `ParamTuning.__init__`: raises when `X.shape[1] != len(X_colnames)`,
otherwise stores the inputs and the `None` slots. -/
def ParamTuning.init (X : Matrix2D) (y : List ℚ) (X_colnames : List String)
    (y_colname : Option String) : Except String TunerState :=
  if X.ncols ≠ X_colnames.length then
    .error "width of X must be equal to length of X_colnames"
  else
    .ok { X := X, y := y, X_colnames := X_colnames, y_colname := y_colname,
          tuning_params := none, bayes_not_opt_params := none, seed := none,
          cv := none, scoring := none, fit_params := none,
          best_estimator_ := none }

/-- The arguments of `grid_search_tuning` (the `**fit_params` kwargs are
a dict that is `[]` when the caller passes none). -/
structure GridArgs where
  cv_model : Option Estimator
  cv_params : Option Dict
  cv : Option CVArg
  seed : Option Int
  scoring : Option String
  fit_params : Dict
deriving DecidableEq, Repr

/-- The resolved values of `grid_search_tuning`'s arguments after the
`if arg == None:` block (lines 113–124), before the `random_state`
injection. -/
structure GridResolved where
  cv_model : Estimator
  cv_params : Dict
  cvArg : CVArg
  seed : Int
  scoring : Option String
  fit_params : Dict
deriving DecidableEq, Repr

/-- Lines 113–124 of `grid_search_tuning`: each argument falls back to
the class-level default when the caller passed `None` (or, for the
kwargs dict, nothing). -/
def gridResolve (cfg : FamilyConfig) (a : GridArgs) : GridResolved :=
  { cv_model := match a.cv_model with
      | none => cfg.CV_MODEL
      | some m => m
    cv_params := match a.cv_params with
      | none => cfg.CV_PARAMS_GRID
      | some d => d
    cvArg := match a.cv with
      | none => .num cfg.CV_NUM
      | some c => c
    seed := match a.seed with
      | none => cfg.SEED
      | some s => s
    scoring := match a.scoring with
      | none => cfg.SCORING
      | some s => some s
    fit_params := if a.fit_params = [] then cfg.FIT_PARAMS else a.fit_params }

/-- `if isinstance(cv, numbers.Integral): cv = KFold(n_splits=cv,
shuffle=True, random_state=seed)`. -/
def buildSplitter (cv : CVArg) (seed : Int) : Splitter :=
  match cv with
  | .num n => .kfold { n_splits := n, shuffle := true, random_state := some seed }
  | .split s => s

/-- What `grid_search_tuning` hands to `GridSearchCV(...)` /
`gridcv.fit(...)`. -/
structure SearchBackendCall where
  cv_model : Estimator
  cv_params : Dict
  cv : Splitter
  scoring : Option String
  fit_params : Dict
deriving DecidableEq, Repr

/-- `ParamTuning.grid_search_tuning`.  The external `GridSearchCV` back
end is abstracted by `bp`, its reported `best_params_` (one value chosen
from each candidate list of the grid; claims constrain it through
`gridSelects`).  Returns (new instance state, the recorded back-end
call, the returned best parameters). -/
def grid_search_tuning (cfg : FamilyConfig) (st : TunerState) (a : GridArgs)
    (bp : Dict) : TunerState × SearchBackendCall × Dict :=
  let r := gridResolve cfg a
  let cv_params := Dict.insert r.cv_params "random_state" (.list [.int r.seed])
  let fit_params := r.fit_params
  let cv := buildSplitter r.cvArg r.seed
  let st1 : TunerState :=
    { st with tuning_params := some cv_params, seed := some r.seed,
              scoring := some r.scoring, fit_params := some fit_params,
              cv := some cv,
              best_estimator_ := some { model := r.cv_model, params := bp,
                                        X := st.X, y := st.y,
                                        fit_params := fit_params } }
  (st1, { cv_model := r.cv_model, cv_params := cv_params, cv := cv,
          scoring := r.scoring, fit_params := fit_params }, bp)

/-- One grid entry selects one best-params entry: same key, and the
chosen scalar is one of the candidates. -/
def selectsEntry : (String × PValue) → (String × PValue) → Bool
  | (k, PValue.list vs), (k', PValue.scalar v) => k = k' && vs.contains v
  | _, _ => false

/-- `bp` is a legal `best_params_` of a grid/random search over `grid`:
same keys in the same order, each value a member of the corresponding
candidate list.  This is the contract of the external
`GridSearchCV`/`RandomizedSearchCV` back ends. -/
def gridSelects (grid bp : Dict) : Bool :=
  grid.length = bp.length && (grid.zip bp).all (fun q => selectsEntry q.1 q.2)

/-- The arguments of `random_search_tuning`. -/
structure RandomArgs where
  cv_model : Option Estimator
  cv_params : Option Dict
  cv : Option CVArg
  seed : Option Int
  scoring : Option String
  n_iter : Option Int
  fit_params : Dict
deriving DecidableEq, Repr

/-- The resolved arguments of `random_search_tuning` (lines 184–197). -/
structure RandomResolved where
  cv_model : Estimator
  cv_params : Dict
  cvArg : CVArg
  seed : Int
  scoring : Option String
  n_iter : Int
  fit_params : Dict
deriving DecidableEq, Repr

/-- Lines 184–197 of `random_search_tuning`: argument resolution against
the class-level defaults. -/
def randomResolve (cfg : FamilyConfig) (a : RandomArgs) : RandomResolved :=
  { cv_model := match a.cv_model with
      | none => cfg.CV_MODEL
      | some m => m
    cv_params := match a.cv_params with
      | none => cfg.CV_PARAMS_RANDOM
      | some d => d
    cvArg := match a.cv with
      | none => .num cfg.CV_NUM
      | some c => c
    seed := match a.seed with
      | none => cfg.SEED
      | some s => s
    scoring := match a.scoring with
      | none => cfg.SCORING
      | some s => some s
    n_iter := match a.n_iter with
      | none => cfg.N_ITER_RANDOM
      | some n => n
    fit_params := if a.fit_params = [] then cfg.FIT_PARAMS else a.fit_params }

/-- What `random_search_tuning` hands to `RandomizedSearchCV(...)` /
`randcv.fit(...)`. -/
structure RandBackendCall where
  cv_model : Estimator
  cv_params : Dict
  cv : Splitter
  random_state : Int
  n_iter : Int
  scoring : Option String
  fit_params : Dict
deriving DecidableEq, Repr

/-- `ParamTuning.random_search_tuning`, with the external
`RandomizedSearchCV` abstracted by its reported `best_params_` `bp`. -/
def random_search_tuning (cfg : FamilyConfig) (st : TunerState) (a : RandomArgs)
    (bp : Dict) : TunerState × RandBackendCall × Dict :=
  let r := randomResolve cfg a
  let cv_params := Dict.insert r.cv_params "random_state" (.list [.int r.seed])
  let fit_params := r.fit_params
  let cv := buildSplitter r.cvArg r.seed
  let st1 : TunerState :=
    { st with tuning_params := some cv_params, seed := some r.seed,
              scoring := some r.scoring, fit_params := some fit_params,
              cv := some cv,
              best_estimator_ := some { model := r.cv_model, params := bp,
                                        X := st.X, y := st.y,
                                        fit_params := fit_params } }
  (st1, { cv_model := r.cv_model, cv_params := cv_params, cv := cv,
          random_state := r.seed, n_iter := r.n_iter,
          scoring := r.scoring, fit_params := fit_params }, bp)

/-- The arguments of `bayes_opt_tuning`. -/
structure BayesArgs where
  cv_model : Option Estimator
  bayes_params : Option Dict
  cv : Option CVArg
  seed : Option Int
  scoring : Option String
  n_iter : Option Int
  init_points : Option Int
  acq : Option String
  bayes_not_opt_params : Option Dict
  fit_params : Dict
deriving DecidableEq, Repr

/-- The resolved arguments of `bayes_opt_tuning` (lines 267–286). -/
structure BayesResolved where
  cv_model : Estimator
  bayes_params : Dict
  cvArg : CVArg
  seed : Int
  scoring : Option String
  n_iter : Int
  init_points : Int
  acq : String
  bayes_not_opt_params : Dict
  fit_params : Dict
deriving DecidableEq, Repr

/-- Lines 267–286 of `bayes_opt_tuning`: argument resolution against the
class-level defaults. -/
def bayesResolve (cfg : FamilyConfig) (a : BayesArgs) : BayesResolved :=
  { cv_model := match a.cv_model with
      | none => cfg.CV_MODEL
      | some m => m
    bayes_params := match a.bayes_params with
      | none => cfg.BAYES_PARAMS
      | some d => d
    cvArg := match a.cv with
      | none => .num cfg.CV_NUM
      | some c => c
    seed := match a.seed with
      | none => cfg.SEED
      | some s => s
    scoring := match a.scoring with
      | none => cfg.SCORING
      | some s => some s
    n_iter := match a.n_iter with
      | none => cfg.N_ITER_BAYES
      | some n => n
    init_points := match a.init_points with
      | none => cfg.INIT_POINTS
      | some n => n
    acq := match a.acq with
      | none => cfg.ACQ
      | some s => s
    bayes_not_opt_params := match a.bayes_not_opt_params with
      | none => cfg.BAYES_NOT_OPT_PARAMS
      | some d => d
    fit_params := if a.fit_params = [] then cfg.FIT_PARAMS else a.fit_params }

/-- What `bayes_opt_tuning` hands to
`BayesianOptimization(self._bayes_evaluate, bayes_params, random_state=seed)`
and `xgb_bo.maximize(init_points=…, n_iter=…, acq=…)`. -/
structure BayesBackendCall where
  pbounds : Dict
  random_state : Int
  init_points : Int
  n_iter : Int
  acq : String
deriving DecidableEq, Repr

/-- Python `int(q)`: truncation toward zero. -/
def pyTruncInt (q : ℚ) : Int :=
  if q < 0 then -⌊-q⌋ else ⌊q⌋

/-- Look up a key in the optimizer's best point (a float-valued dict). -/
def lookupQ (l : List (String × ℚ)) (k : String) : Option ℚ :=
  match l.find? (fun p => p.1 = k) with
  | some p => some p.2
  | none => none

/-- Lines 307–314 of `bayes_opt_tuning`: take `xgb_bo.max['params']`,
cast the hardcoded keys `min_child_weight` and `max_depth` to int
(a read of a missing key raises `KeyError`), merge in the class-level
`BAYES_NOT_OPT_PARAMS`, and pin `random_state` to the resolved seed. -/
def bayesPostProcess (maxParams : List (String × ℚ)) (classNotOpt : Dict)
    (seed : Int) : Except String Dict :=
  let bp : Dict := maxParams.map (fun p => (p.1, PValue.scalar (.num p.2)))
  match lookupQ maxParams "min_child_weight" with
  | none => .error "KeyError: min_child_weight"
  | some v =>
    let bp := Dict.insert bp "min_child_weight" (.scalar (.int (pyTruncInt v)))
    match lookupQ maxParams "max_depth" with
    | none => .error "KeyError: max_depth"
    | some w =>
      let bp := Dict.insert bp "max_depth" (.scalar (.int (pyTruncInt w)))
      let bp := Dict.update bp classNotOpt
      .ok (Dict.insert bp "random_state" (.scalar (.int seed)))

/-- The observable outcome of one `bayes_opt_tuning` call:
`midState` is the instance state at the moment the optimizer is invoked
(lines 288–298 have run), `call` records what is handed to the
`BayesianOptimization` back end, and `result` is the rest of the method:
`KeyError` when the hardcoded int-cast keys are absent from the best
point, otherwise the returned best-parameter dict together with the
final state (whose `best_estimator_` is the fresh refit with that
dict). -/
structure BayesOutcome where
  midState : TunerState
  call : BayesBackendCall
  result : Except String (Dict × ℚ × TunerState)
deriving Repr

/-- `ParamTuning.bayes_opt_tuning`.  The external `BayesianOptimization`
back end is abstracted by `maxParams` and `maxTarget`, the best point
`xgb_bo.max['params']` and its objective value `xgb_bo.max['target']`
(claims constrain the keys of `maxParams` by hypothesis where needed).
The elapsed wall-clock time of the Python return triple is not
modelled. -/
def bayes_opt_tuning (cfg : FamilyConfig) (st : TunerState) (a : BayesArgs)
    (maxParams : List (String × ℚ)) (maxTarget : ℚ) : BayesOutcome :=
  let r := bayesResolve cfg a
  let fit_params := r.fit_params
  let cv := buildSplitter r.cvArg r.seed
  let st1 : TunerState :=
    { st with tuning_params := some r.bayes_params,
              bayes_not_opt_params := some r.bayes_not_opt_params,
              seed := some r.seed, scoring := some r.scoring,
              fit_params := some fit_params, cv := some cv }
  let call : BayesBackendCall :=
    { pbounds := r.bayes_params, random_state := r.seed,
      init_points := r.init_points, n_iter := r.n_iter, acq := r.acq }
  match bayesPostProcess maxParams cfg.BAYES_NOT_OPT_PARAMS r.seed with
  | .error e => { midState := st1, call := call, result := .error e }
  | .ok best_params =>
    let st2 : TunerState :=
      { st1 with best_estimator_ := some { model := r.cv_model,
                                           params := best_params,
                                           X := st.X, y := st.y,
                                           fit_params := fit_params } }
    { midState := st1, call := call, result := .ok (best_params, maxTarget, st2) }

/-- The record of one `barh` call on the plotting surface: the feature
labels and bar values, in the order handed to `barh`. -/
structure BarhCall where
  target : Option String
  features : List String
  importances : List ℚ
deriving DecidableEq, Repr

/-- `ParamTuning.get_feature_importances(ax)`.  The fitted estimator's
`feature_importances_` attribute is the external attribute map `fi`;
`ax` is the caller's plotting surface (`none` = draw on a fresh default
one, `plt.barh`).  Returns ((return value, recorded plot call), instance
state after the call); the method body assigns no instance attribute, so
the state it leaves behind is the state it was given. -/
def get_feature_importances (st : TunerState) (fi : FittedModel → List ℚ)
    (ax : Option String) : (Option (List ℚ) × Option BarhCall) × TunerState :=
  match st.best_estimator_ with
  | some m =>
      ((some (fi m),
        some { target := ax, features := st.X_colnames.reverse,
               importances := (fi m).reverse }), st)
  | none => ((none, none), st)

/-- Rounding of one continuous parameter value to the nearest
integer. -/
def intConvertValue : PValue → PValue
  | .scalar (.num q) => .scalar (.int (round q))
  | v => v

/-- Modelled from the spec: `_int_conversion` is called by
`_bayes_evaluate` but is not defined under `src/`.  Per the spec, any
parameter declared integer-valued (named in the given list) is rounded
to the nearest integer; every other parameter is untouched. -/
def int_conversion (params : Dict) (int_params : List String) : Dict :=
  params.map (fun p =>
    (p.1, if p.1 ∈ int_params then intConvertValue p.2 else p.2))

/-- The learner step of a pipeline: the last step's name
(`model.steps[len(model.steps)-1][0]`). -/
def learnerStep (steps : List String) : String :=
  steps.getLastD ""

/-- Modelled from the spec: `_add_learner_name` is called by
`_bayes_evaluate` but is not defined under `src/`.  Per the spec, when
the wrapped estimator is a named preprocessing pipeline every parameter
name is prefixed with its pipeline (learner) step's name — sklearn's
`step__param` wire convention; a bare estimator's parameters are left
unchanged. -/
def add_learner_name (model : Estimator) (params : Dict) : Dict :=
  match model with
  | .plain _ => params
  | .pipeline steps =>
      params.map (fun p => (learnerStep steps ++ "__" ++ p.1, p.2))

/-- The instance attributes `_bayes_evaluate` reads.
`bayes_not_opt_params` is set by `bayes_opt_tuning` before the optimizer
runs; `int_params` and `cv_model` are nowhere assigned under `src/` and
are modelled from the spec as the declared integer-valued parameter list
and the wrapped estimator of the family. -/
structure BayesEvalEnv where
  int_params : List String
  bayes_not_opt_params : Dict
  cv_model : Estimator
deriving DecidableEq, Repr

/-- Mean of a list of fold scores (`scores.mean()`). -/
def listMean (l : List ℚ) : ℚ :=
  l.sum / l.length

/-- `SVMRegressorTuning._bayes_evaluate(gamma, C, epsilon)`.  The
external `cross_val_score` is the function `cvs`, taking the estimator
and the parameter set installed on its deep copy by `set_params` and
returning the per-fold scores.  Returns (the installed parameter set,
the mean fold score that Python returns). -/
def svmReg_bayes_evaluate (env : BayesEvalEnv)
    (cvs : Estimator → Dict → List ℚ) (gamma C epsilon : ℚ) : Dict × ℚ :=
  let params : Dict := [("gamma", .scalar (.num gamma)),
                        ("C", .scalar (.num C)),
                        ("epsilon", .scalar (.num epsilon))]
  let params := int_conversion params env.int_params
  let params := Dict.update params env.bayes_not_opt_params
  let params := add_learner_name env.cv_model params
  (params, listMean (cvs env.cv_model params))

/-- `SVMClassifierTuning._bayes_evaluate(gamma, C)`: same shape without
`epsilon`. -/
def svmCls_bayes_evaluate (env : BayesEvalEnv)
    (cvs : Estimator → Dict → List ℚ) (gamma C : ℚ) : Dict × ℚ :=
  let params : Dict := [("gamma", .scalar (.num gamma)),
                        ("C", .scalar (.num C))]
  let params := int_conversion params env.int_params
  let params := Dict.update params env.bayes_not_opt_params
  let params := add_learner_name env.cv_model params
  (params, listMean (cvs env.cv_model params))

/-- The class constants of `SVMRegressorTuning` (`svm_tuning.py`,
values after the class-body `CV_PARAMS_GRID.update(NOT_OPT_PARAMS)` /
`CV_PARAMS_RANDOM.update(NOT_OPT_PARAMS)` statements have run). -/
def svmRegressorConfig : FamilyConfig :=
  { SEED := 42
    CV_NUM := 5
    CV_MODEL := .pipeline ["scaler", "svr"]
    FIT_PARAMS := []
    SCORING := some "neg_mean_squared_error"
    NOT_OPT_PARAMS := [("kernel", .list [.str "rbf"])]
    CV_PARAMS_GRID :=
      [("gamma", .list [.num (1/100), .num (3/100), .num (1/10),
                        .num (3/10), .int 1, .int 3, .int 10]),
       ("C", .list [.num (1/10), .num (3/10), .int 1, .int 3, .int 10]),
       ("epsilon", .list [.int 0, .num (1/10), .num (2/10), .num (3/10)]),
       ("kernel", .list [.str "rbf"])]
    N_ITER_RANDOM := 200
    CV_PARAMS_RANDOM :=
      [("gamma", .list [.num (1/100), .num (2/100), .num (5/100),
                        .num (1/10), .num (2/10), .num (5/10),
                        .int 1, .int 2, .int 5, .int 10]),
       ("C", .list [.num (1/10), .num (2/10), .num (5/10),
                    .int 1, .int 2, .int 5, .int 10]),
       ("epsilon", .list [.int 0, .num (5/100), .num (1/10), .num (15/100),
                          .num (2/10), .num (25/100), .num (3/10)]),
       ("kernel", .list [.str "rbf"])]
    N_ITER_BAYES := 100
    INIT_POINTS := 20
    ACQ := "ei"
    BAYES_PARAMS := [("gamma", .range (1/100) 10),
                     ("C", .range (1/10) 10),
                     ("epsilon", .range 0 (3/10))]
    INT_PARAMS := []
    BAYES_NOT_OPT_PARAMS := [("kernel", .scalar (.str "rbf"))] }

/-- The class constants of `SVMClassifierTuning` (`svm_tuning.py`). -/
def svmClassifierConfig : FamilyConfig :=
  { SEED := 42
    CV_NUM := 5
    CV_MODEL := .pipeline ["scaler", "svc"]
    FIT_PARAMS := []
    SCORING := some "neg_log_loss"
    NOT_OPT_PARAMS := [("kernel", .list [.str "rbf"])]
    CV_PARAMS_GRID :=
      [("gamma", .list [.num (1/100), .num (3/100), .num (1/10),
                        .num (3/10), .int 1, .int 3, .int 10]),
       ("C", .list [.num (1/10), .num (3/10), .int 1, .int 3, .int 10]),
       ("kernel", .list [.str "rbf"])]
    N_ITER_RANDOM := 200
    CV_PARAMS_RANDOM :=
      [("gamma", .list [.num (1/100), .num (2/100), .num (5/100),
                        .num (1/10), .num (2/10), .num (5/10),
                        .int 1, .int 2, .int 5, .int 10]),
       ("C", .list [.num (1/10), .num (2/10), .num (5/10),
                    .int 1, .int 2, .int 5, .int 10]),
       ("kernel", .list [.str "rbf"])]
    N_ITER_BAYES := 100
    INIT_POINTS := 20
    ACQ := "ei"
    BAYES_PARAMS := [("gamma", .range (1/100) 10),
                     ("C", .range (1/10) 10)]
    INT_PARAMS := []
    BAYES_NOT_OPT_PARAMS := [("kernel", .scalar (.str "rbf"))] }

/-- A store of Python dict objects addressed by object identity, to make
the reference semantics of the grid-resolution step explicit: the
class-level default grid dicts (`CV_PARAMS_GRID`, `CV_PARAMS_RANDOM`)
are single shared objects per model family, and local variables alias
them. -/
structure DictStore where
  entries : List (Nat × Dict)
deriving DecidableEq, Repr

/-- The dict object a reference denotes (`[]` for a dangling reference;
the class dicts always exist). -/
def DictStore.obj (s : DictStore) (r : Nat) : Dict :=
  match s.entries.find? (fun p => p.1 = r) with
  | some p => p.2
  | none => []

/-- Whether a reference denotes an object of the store. -/
def DictStore.hasRef (s : DictStore) (r : Nat) : Bool :=
  s.entries.any (fun p => p.1 = r)

/-- In-place mutation of the dict object behind a reference. -/
def DictStore.write (s : DictStore) (r : Nat) (d : Dict) : DictStore :=
  ⟨s.entries.map (fun p => if p.1 = r then (r, d) else p)⟩

/-- The references (object identities) existing in the store. -/
def DictStore.refs (s : DictStore) : List Nat :=
  s.entries.map (fun p => p.1)

/-- Lines 115–116 and 126 of `grid_search_tuning` (identically lines
186–187 and 199 of `random_search_tuning`) with Python reference
semantics: `if cv_params == None: cv_params = self.CV_PARAMS_GRID`
binds the local name to the shared class-level dict object
(`classGridRef`) when the caller passed nothing, or to the caller's own
dict object; `cv_params['random_state'] = [seed]` then mutates whichever
object the name references, in place — no copy is ever made.  Returns
the store after the mutation and the reference the method goes on
using. -/
def resolveAndInjectSeed (store : DictStore) (classGridRef : Nat)
    (argGrid : Option Nat) (seed : Int) : DictStore × Nat :=
  let r := match argGrid with
    | none => classGridRef
    | some rr => rr
  (store.write r (Dict.insert (store.obj r) "random_state" (.list [.int seed])), r)

/-- A concrete valid tuner instance (2 columns, 2 feature names), used
as the starting state of concrete runs. -/
def demoTuner : TunerState :=
  { X := { ncols := 2, rows := [[1, 2], [3, 4]] }, y := [1, 0],
    X_colnames := ["a", "b"], y_colname := none,
    tuning_params := none, bayes_not_opt_params := none, seed := none,
    cv := none, scoring := none, fit_params := none,
    best_estimator_ := none }

/-- `grid_search_tuning()` with every argument omitted. -/
def gridArgsNone : GridArgs :=
  { cv_model := none, cv_params := none, cv := none, seed := none,
    scoring := none, fit_params := [] }

/-- `random_search_tuning()` with every argument omitted. -/
def randomArgsNone : RandomArgs :=
  { cv_model := none, cv_params := none, cv := none, seed := none,
    scoring := none, n_iter := none, fit_params := [] }

/-- `bayes_opt_tuning()` with every argument omitted. -/
def bayesArgsNone : BayesArgs :=
  { cv_model := none, bayes_params := none, cv := none, seed := none,
    scoring := none, n_iter := none, init_points := none, acq := none,
    bayes_not_opt_params := none, fit_params := [] }

/-- A model-family configuration of the shape the hardcoded int-cast of
lines 308–311 expects: the base class is written for an XGBoost-style
family (`xgb_bo`, `min_child_weight`, `max_depth` in `param_tuning.py`),
whose Bayesian ranges contain those two parameter names.  Used to drive
`bayes_opt_tuning` through its successful path. -/
def xgbLikeConfig : FamilyConfig :=
  { SEED := 42
    CV_NUM := 5
    CV_MODEL := .plain "xgb"
    FIT_PARAMS := []
    SCORING := some "neg_mean_squared_error"
    NOT_OPT_PARAMS := [("booster", .list [.str "gbtree"])]
    CV_PARAMS_GRID := [("max_depth", .list [.int 3, .int 5]),
                       ("booster", .list [.str "gbtree"])]
    N_ITER_RANDOM := 200
    CV_PARAMS_RANDOM := [("max_depth", .list [.int 3, .int 5, .int 7]),
                         ("booster", .list [.str "gbtree"])]
    N_ITER_BAYES := 100
    INIT_POINTS := 20
    ACQ := "ei"
    BAYES_PARAMS := [("min_child_weight", .range 1 10),
                     ("max_depth", .range 2 10)]
    INT_PARAMS := ["min_child_weight", "max_depth"]
    BAYES_NOT_OPT_PARAMS := [("booster", .scalar (.str "gbtree"))] }

/-- `bayes_opt_tuning(bayes_not_opt_params={'booster': 'dart'})`: the
caller supplies an explicit fixed-parameter mapping. -/
def xgbCallerArgs : BayesArgs :=
  { bayesArgsNone with
      bayes_not_opt_params := some [("booster", .scalar (.str "dart"))] }

/-- `grid_search_tuning(seed=7)`. -/
def gaSeeded : GridArgs := { gridArgsNone with seed := some 7 }

/-- `grid_search_tuning(cv=3, seed=7)`. -/
def gaCV3 : GridArgs := { gridArgsNone with cv := some (.num 3), seed := some 7 }

/-- `random_search_tuning(cv=<caller splitter object>)`. -/
def raCVObj : RandomArgs :=
  { randomArgsNone with cv := some (.split (.other "loo")) }

/-- `bayes_opt_tuning(acq='ucb')`. -/
def baAcq : BayesArgs := { bayesArgsNone with acq := some "ucb" }

/-- A concrete fitted model, standing for a stored best estimator. -/
def demoFitted : FittedModel :=
  { model := .pipeline ["scaler", "svr"], params := [],
    X := { ncols := 2, rows := [] }, y := [], fit_params := [] }

/-- `demoTuner` after a search stored a best estimator. -/
def demoTunerFitted : TunerState :=
  { demoTuner with best_estimator_ := some demoFitted }

/-- A concrete `feature_importances_` attribute map. -/
def demoImportance : FittedModel → List ℚ := fun _ => [3, 7]

/-- A store with the class-level default grid dict (reference 0) and one
caller-owned dict (reference 1). -/
def demoStore : DictStore :=
  ⟨[(0, [("alpha", .list [.int 1, .int 2])]),
    (1, [("beta", .list [.int 3])])]⟩

/-- A concrete objective-callback environment: `epsilon` declared
integer-valued, the `kernel` fixed parameter, the source's
scaler+SVR pipeline. -/
def demoEvalEnv : BayesEvalEnv :=
  { int_params := ["epsilon"],
    bayes_not_opt_params := [("kernel", .scalar (.str "rbf"))],
    cv_model := .pipeline ["scaler", "svr"] }

/-- A concrete `cross_val_score` stub returning three fold scores. -/
def demoCVS : Estimator → Dict → List ℚ := fun _ _ => [1, 2, 3]

/-- A concrete `best_params_` the grid back end can report for
`xgbLikeConfig`'s default grid with seed 7 pinned. -/
def xgbGridBest : Dict :=
  [("max_depth", .scalar (.int 3)), ("booster", .scalar (.str "gbtree")),
   ("random_state", .scalar (.int 7))]

/-- A concrete `best_params_` the randomized back end can report for
`xgbLikeConfig`'s default random grid with seed 42 pinned. -/
def xgbRandBest : Dict :=
  [("max_depth", .scalar (.int 5)), ("booster", .scalar (.str "gbtree")),
   ("random_state", .scalar (.int 42))]

/-- A concrete best point reported by the Bayesian optimizer over
`xgbLikeConfig.BAYES_PARAMS`. -/
def xgbBayesPoint : List (String × ℚ) :=
  [("min_child_weight", 3), ("max_depth", 5)]

/-- The best-parameter mapping `bayes_opt_tuning` returns for
`xgbBayesPoint` under `xgbLikeConfig` with the default seed 42. -/
def xgbBayesBest : Dict :=
  [("min_child_weight", .scalar (.int (pyTruncInt 3))),
   ("max_depth", .scalar (.int (pyTruncInt 5))),
   ("booster", .scalar (.str "gbtree")),
   ("random_state", .scalar (.int 42))]

/-! ### Association-list lemmas -/

@[simp]
theorem Dict.get_nil (k : String) : Dict.get [] k = none := rfl

@[simp]
theorem Dict.get_cons (k1 : String) (v : PValue) (d : Dict) (k : String) :
    Dict.get ((k1, v) :: d) k = if k1 = k then some v else Dict.get d k := by
  by_cases h : k1 = k <;> simp [Dict.get, List.find?, h]

@[simp]
theorem Dict.hasKey_nil (k : String) : Dict.hasKey [] k = false := rfl

@[simp]
theorem Dict.hasKey_cons (k1 : String) (v : PValue) (d : Dict) (k : String) :
    Dict.hasKey ((k1, v) :: d) k = (k1 = k || Dict.hasKey d k) := by
  simp [Dict.hasKey]

theorem Dict.get_append (d1 d2 : Dict) (k : String) :
    Dict.get (d1 ++ d2) k =
      match Dict.get d1 k with
      | some v => some v
      | none => Dict.get d2 k := by
  induction d1 with
  | nil => simp
  | cons p d1 ih =>
      obtain ⟨k1, v1⟩ := p
      by_cases h : k1 = k <;> simp [h, ih]

theorem Dict.get_of_hasKey_false (d : Dict) (k : String)
    (h : Dict.hasKey d k = false) : Dict.get d k = none := by
  induction d with
  | nil => simp
  | cons p d ih =>
      obtain ⟨k1, v1⟩ := p
      simp at h
      simp [h.1, ih h.2]

theorem Dict.get_map_put (d : Dict) (k : String) (v : PValue)
    (hd : Dict.hasKey d k = true) :
    Dict.get (d.map (fun p => if p.1 = k then (k, v) else p)) k = some v := by
  induction d with
  | nil => simp at hd
  | cons p d ih =>
      obtain ⟨k1, v1⟩ := p
      by_cases hk : k1 = k
      · subst hk; simp
      · simp only [Dict.hasKey_cons] at hd
        simp only [decide_eq_false hk, Bool.false_or] at hd
        simpa [hk] using ih hd

theorem Dict.get_map_keep (d : Dict) (k' k : String) (v : PValue)
    (h : k' ≠ k) :
    Dict.get (d.map (fun p => if p.1 = k' then (k', v) else p)) k =
      Dict.get d k := by
  induction d with
  | nil => simp
  | cons p d ih =>
      obtain ⟨k1, v1⟩ := p
      by_cases hk : k1 = k'
      · subst hk
        simp [h, ih]
      · by_cases h2 : k1 = k
        · subst h2
          simp [hk]
        · simp [hk, h2, ih]

theorem Dict.get_insert_self (d : Dict) (k : String) (v : PValue) :
    Dict.get (Dict.insert d k v) k = some v := by
  unfold Dict.insert
  by_cases h : Dict.hasKey d k = true
  · rw [if_pos h]
    exact Dict.get_map_put d k v h
  · rw [if_neg h, Dict.get_append,
        Dict.get_of_hasKey_false d k (Bool.not_eq_true _ ▸ h)]
    simp

theorem Dict.get_insert_ne (d : Dict) (k' k : String) (v : PValue)
    (h : k' ≠ k) : Dict.get (Dict.insert d k' v) k = Dict.get d k := by
  unfold Dict.insert
  by_cases hh : Dict.hasKey d k' = true
  · rw [if_pos hh]
    exact Dict.get_map_keep d k' k v h
  · rw [if_neg hh, Dict.get_append]
    cases hg : Dict.get d k <;> simp [h]

theorem Dict.hasKey_iff_mem_keys (d : Dict) (k : String) :
    Dict.hasKey d k = true ↔ k ∈ Dict.keys d := by
  induction d with
  | nil => simp [Dict.keys]
  | cons p d ih =>
      obtain ⟨k1, v1⟩ := p
      by_cases hk : k1 = k
      · simp [Dict.keys, hk, ih]
      · simp [Dict.keys, hk, ih]
        tauto

theorem Dict.get_update_not_mem (d e : Dict) (k : String)
    (h : Dict.hasKey e k = false) :
    Dict.get (Dict.update d e) k = Dict.get d k := by
  induction e generalizing d with
  | nil => rfl
  | cons p e ih =>
      obtain ⟨k1, v1⟩ := p
      have hstep : Dict.update d ((k1, v1) :: e) =
          Dict.update (Dict.insert d k1 v1) e := rfl
      by_cases hk : k1 = k
      · subst hk; simp at h
      · simp only [Dict.hasKey_cons, decide_eq_false hk, Bool.false_or] at h
        rw [hstep, ih _ h, Dict.get_insert_ne _ _ _ _ hk]

theorem Dict.get_update_of_mem (d e : Dict) (k : String) (v : PValue)
    (hnd : (Dict.keys e).Nodup) (h : Dict.get e k = some v) :
    Dict.get (Dict.update d e) k = some v := by
  induction e generalizing d with
  | nil => simp at h
  | cons p e ih =>
      obtain ⟨k1, v1⟩ := p
      have hstep : Dict.update d ((k1, v1) :: e) =
          Dict.update (Dict.insert d k1 v1) e := rfl
      have hkeys : Dict.keys ((k1, v1) :: e) = k1 :: Dict.keys e := rfl
      rw [hkeys, List.nodup_cons] at hnd
      by_cases hk : k1 = k
      · subst hk
        rw [Dict.get_cons, if_pos rfl] at h
        have hnk : Dict.hasKey e k1 = false := by
          cases hke : Dict.hasKey e k1
          · rfl
          · exact absurd ((Dict.hasKey_iff_mem_keys e k1).mp hke) hnd.1
        rw [hstep, Dict.get_update_not_mem _ _ _ hnk, Dict.get_insert_self]
        exact h
      · rw [Dict.get_cons, if_neg hk] at h
        rw [hstep]
        exact ih _ hnd.2 h

/-! ### Lemmas on the spec-modelled helpers -/

theorem get_int_conversion (d : Dict) (ips : List String) (k : String) :
    Dict.get (int_conversion d ips) k =
      (Dict.get d k).map
        (fun v => if k ∈ ips then intConvertValue v else v) := by
  induction d with
  | nil => simp [int_conversion]
  | cons p d ih =>
      obtain ⟨k1, v1⟩ := p
      by_cases hk : k1 = k
      · subst hk; simp [int_conversion]
      · simp only [int_conversion, List.map_cons] at ih ⊢
        simp [Dict.get_cons, hk, ih]

theorem keys_int_conversion (d : Dict) (ips : List String) :
    Dict.keys (int_conversion d ips) = Dict.keys d := by
  simp [int_conversion, Dict.keys, List.map_map, Function.comp]

theorem keys_add_learner_name_pipeline (steps : List String) (d : Dict) :
    Dict.keys (add_learner_name (.pipeline steps) d) =
      (Dict.keys d).map (fun k => learnerStep steps ++ "__" ++ k) := by
  simp [add_learner_name, Dict.keys, List.map_map, Function.comp]

/-! ### Lemmas on the back-end selection contract -/

theorem gridSelects_get (g : Dict) :
    ∀ (bp : Dict) (k : String) (vs : List Scalar),
    gridSelects g bp = true → Dict.get g k = some (.list vs) →
    ∃ v, Dict.get bp k = some (.scalar v) ∧ vs.contains v = true := by
  induction g with
  | nil => intro bp k vs _ hget; simp at hget
  | cons p g ih =>
      intro bp k vs hsel hget
      obtain ⟨k1, v1⟩ := p
      cases bp with
      | nil => simp [gridSelects] at hsel
      | cons q bp =>
          obtain ⟨k2, w⟩ := q
          simp only [gridSelects, List.length_cons, List.zip_cons_cons,
            List.all_cons, Bool.and_eq_true, decide_eq_true_eq,
            Nat.add_right_cancel_iff] at hsel
          obtain ⟨hlen, hone, hall⟩ := hsel
          have hrest : gridSelects g bp = true := by
            simp [gridSelects, hlen, hall]
          cases v1 with
          | list ws =>
              cases w with
              | scalar v =>
                  simp only [selectsEntry, Bool.and_eq_true,
                    decide_eq_true_eq] at hone
                  obtain ⟨hk12, hmem⟩ := hone
                  by_cases hk : k1 = k
                  · subst hk
                    rw [Dict.get_cons, if_pos rfl] at hget
                    injection hget with hget
                    injection hget with hget
                    refine ⟨v, ?_, hget ▸ hmem⟩
                    rw [Dict.get_cons, if_pos hk12.symm]
                  · rw [Dict.get_cons, if_neg hk] at hget
                    have hk2 : ¬ (k2 = k) := fun hc => hk (hk12.trans hc)
                    obtain ⟨v', hv1, hv2⟩ := ih bp k vs hrest hget
                    exact ⟨v', by rw [Dict.get_cons, if_neg hk2]; exact hv1, hv2⟩
              | _ => simp [selectsEntry] at hone
          | scalar s =>
              cases w <;> simp [selectsEntry] at hone
          | range lo hi =>
              cases w <;> simp [selectsEntry] at hone

/-! ### Lemmas on the dict store -/

theorem find_write (es : List (Nat × Dict)) (r : Nat) (d : Dict)
    (h : es.any (fun p => p.1 = r) = true) :
    (es.map (fun p => if p.1 = r then (r, d) else p)).find?
        (fun p => p.1 = r) = some (r, d) := by
  induction es with
  | nil => simp at h
  | cons p es ih =>
      by_cases hp : p.1 = r
      · simp only [List.map_cons, if_pos hp]
        rw [List.find?_cons_of_pos _ (by simp)]
      · simp only [List.any_cons, decide_eq_false hp, Bool.false_or] at h
        simp only [List.map_cons, if_neg hp]
        rw [List.find?_cons_of_neg _ (by simp [hp])]
        exact ih h

theorem map_fst_write (es : List (Nat × Dict)) (r : Nat) (d : Dict) :
    (es.map (fun p => if p.1 = r then (r, d) else p)).map (fun p => p.1) =
      es.map (fun p => p.1) := by
  induction es with
  | nil => rfl
  | cons p es ih =>
      by_cases hp : p.1 = r <;> simp [hp, ih]

theorem DictStore.obj_write_self (s : DictStore) (r : Nat) (d : Dict)
    (h : s.hasRef r = true) : (s.write r d).obj r = d := by
  obtain ⟨es⟩ := s
  have hf := find_write es r d (by simpa [DictStore.hasRef] using h)
  simp [DictStore.write, DictStore.obj, hf]

theorem DictStore.refs_write (s : DictStore) (r : Nat) (d : Dict) :
    (s.write r d).refs = s.refs := by
  obtain ⟨es⟩ := s
  exact map_fst_write es r d

/-! ### The claims -/

/-- C7: `ParamTuning` construction succeeds exactly when the feature
matrix's column count equals the length of the feature-name list, in
which case the inputs are stored unchanged and every other slot —
the best-estimator slot included — holds the none-value; on a mismatch
it raises the validation error and creates no state. -/
theorem C7_construction_validation (X : Matrix2D) (y : List ℚ)
    (cols : List String) (yname : Option String) :
    (X.ncols = cols.length →
      ParamTuning.init X y cols yname =
        .ok { X := X, y := y, X_colnames := cols, y_colname := yname,
              tuning_params := none, bayes_not_opt_params := none,
              seed := none, cv := none, scoring := none, fit_params := none,
              best_estimator_ := none }) ∧
    (X.ncols ≠ cols.length →
      ParamTuning.init X y cols yname =
        .error "width of X must be equal to length of X_colnames") := by
  constructor
  · intro h
    simp [ParamTuning.init, h]
  · intro h
    simp [ParamTuning.init, h]

/-- Witness for C7: a concrete matching construction and a concrete
mismatched one. -/
theorem C7_witness :
    ParamTuning.init { ncols := 2, rows := [[1, 2]] } [5] ["a", "b"] none =
        .ok { X := { ncols := 2, rows := [[1, 2]] }, y := [5],
              X_colnames := ["a", "b"], y_colname := none,
              tuning_params := none, bayes_not_opt_params := none,
              seed := none, cv := none, scoring := none, fit_params := none,
              best_estimator_ := none } ∧
    ParamTuning.init { ncols := 2, rows := [[1, 2]] } [5] ["a"] none =
        .error "width of X must be equal to length of X_colnames" :=
  ⟨(C7_construction_validation _ _ _ _).1 (by decide),
   (C7_construction_validation _ _ _ _).2 (by decide)⟩

/-- C8: with no fitted best estimator, `get_feature_importances` returns
the none-value (and, being a total function of the state, never raises);
with one, it returns the raw importance values in original feature order
while the rendered bar chart receives the reversed feature order and
reversed values. -/
theorem C8_feature_importances (st : TunerState) (fi : FittedModel → List ℚ)
    (ax : Option String) :
    (st.best_estimator_ = none →
      get_feature_importances st fi ax = ((none, none), st)) ∧
    (∀ m, st.best_estimator_ = some m →
      get_feature_importances st fi ax =
        ((some (fi m),
          some { target := ax, features := st.X_colnames.reverse,
                 importances := (fi m).reverse }), st)) := by
  constructor
  · intro h
    simp [get_feature_importances, h]
  · intro m h
    simp [get_feature_importances, h]

/-- Witness for C8: the fresh tuner gives the none-value, a fitted tuner
gives the raw values with the reversed bar chart. -/
theorem C8_witness :
    get_feature_importances demoTuner demoImportance none =
        ((none, none), demoTuner) ∧
    get_feature_importances demoTunerFitted demoImportance none =
        ((some (demoImportance demoFitted),
          some { target := none,
                 features := demoTunerFitted.X_colnames.reverse,
                 importances := (demoImportance demoFitted).reverse }),
         demoTunerFitted) :=
  ⟨(C8_feature_importances demoTuner demoImportance none).1 rfl,
   (C8_feature_importances demoTunerFitted demoImportance none).2 demoFitted rfl⟩

/-- C9: `get_feature_importances` leaves every field of the tuner state
unchanged, and a second consecutive call returns the same value as the
first. -/
theorem C9_feature_importances_idempotent (st : TunerState)
    (fi : FittedModel → List ℚ) (ax ax2 : Option String) :
    (get_feature_importances st fi ax).2 = st ∧
    (get_feature_importances
        ((get_feature_importances st fi ax).2) fi ax2).1.1 =
      (get_feature_importances st fi ax).1.1 ∧
    (get_feature_importances
        ((get_feature_importances st fi ax).2) fi ax2).2 = st := by
  have hstate : ∀ ax' : Option String,
      (get_feature_importances st fi ax').2 = st := by
    intro ax'
    cases h : st.best_estimator_ <;> simp [get_feature_importances, h]
  have hval : ∀ ax1 ax2' : Option String,
      (get_feature_importances st fi ax1).1.1 =
        (get_feature_importances st fi ax2').1.1 := by
    intro ax1 ax2'
    cases h : st.best_estimator_ <;> simp [get_feature_importances, h]
  refine ⟨hstate ax, ?_, ?_⟩
  · rw [hstate ax]
    exact hval ax2 ax
  · rw [hstate ax]
    exact hstate ax2

/-- C10: with the grid argument omitted, the `random_state` insertion of
`grid_search_tuning` / `random_search_tuning` mutates the shared
class-level default grid dict object in place — every other instance of
the same model family reads its grids through the same reference
`classRef`, so it observes the inserted key afterwards; a caller-supplied
grid dict is likewise mutated in place, the method keeping the caller's
own reference and allocating no copy. -/
theorem C10_shared_default_grid_mutation (store : DictStore)
    (classRef : Nat) (seed : Int) :
    (store.hasRef classRef = true →
      (resolveAndInjectSeed store classRef none seed).1.obj classRef =
          Dict.insert (store.obj classRef) "random_state"
            (.list [.int seed]) ∧
      Dict.get ((resolveAndInjectSeed store classRef none seed).1.obj
            classRef) "random_state" = some (.list [.int seed])) ∧
    (∀ r, store.hasRef r = true →
      (resolveAndInjectSeed store classRef (some r) seed).1.obj r =
          Dict.insert (store.obj r) "random_state" (.list [.int seed]) ∧
      (resolveAndInjectSeed store classRef (some r) seed).2 = r) ∧
    (resolveAndInjectSeed store classRef none seed).1.refs = store.refs ∧
    (∀ r, (resolveAndInjectSeed store classRef (some r) seed).1.refs =
      store.refs) := by
  refine ⟨fun h => ⟨?_, ?_⟩, fun r h => ⟨?_, rfl⟩, ?_, fun r => ?_⟩
  · exact DictStore.obj_write_self _ _ _ h
  · show Dict.get ((store.write classRef
        (Dict.insert (store.obj classRef) "random_state"
          (.list [.int seed]))).obj classRef) "random_state" =
      some (.list [.int seed])
    rw [DictStore.obj_write_self _ _ _ h]
    exact Dict.get_insert_self _ _ _
  · exact DictStore.obj_write_self _ _ _ h
  · exact DictStore.refs_write _ _ _
  · exact DictStore.refs_write _ _ _

/-- Witness for C10: mutating through the class reference and through a
caller reference of the concrete two-dict store. -/
theorem C10_witness :
    Dict.get ((resolveAndInjectSeed demoStore 0 none 7).1.obj 0)
        "random_state" = some (.list [.int 7]) ∧
    (resolveAndInjectSeed demoStore 0 (some 1) 7).1.obj 1 =
        Dict.insert (demoStore.obj 1) "random_state" (.list [.int 7]) ∧
    (resolveAndInjectSeed demoStore 0 (some 1) 7).1.refs = demoStore.refs :=
  ⟨((C10_shared_default_grid_mutation demoStore 0 7).1 (by decide)).2,
   ((C10_shared_default_grid_mutation demoStore 0 7).2.1 1 (by decide)).1,
   (C10_shared_default_grid_mutation demoStore 0 7).2.2.2 1⟩

/-- C1: in each of the three search methods every optional argument
resolves to the caller's value when one is passed and to the
model-family class-level default when omitted — for the model, the
parameter grid / range mapping, the cross-validation argument, the seed,
the scoring metric, the iteration and init-point counts, the acquisition
function, the fixed (non-optimized) parameter mapping and the fit-time
kwargs. -/
theorem C1_argument_resolution (cfg : FamilyConfig) (ga : GridArgs)
    (ra : RandomArgs) (ba : BayesArgs) :
    ((∀ m, ga.cv_model = some m → (gridResolve cfg ga).cv_model = m) ∧
     (ga.cv_model = none → (gridResolve cfg ga).cv_model = cfg.CV_MODEL) ∧
     (∀ d, ga.cv_params = some d → (gridResolve cfg ga).cv_params = d) ∧
     (ga.cv_params = none →
       (gridResolve cfg ga).cv_params = cfg.CV_PARAMS_GRID) ∧
     (∀ c, ga.cv = some c → (gridResolve cfg ga).cvArg = c) ∧
     (ga.cv = none → (gridResolve cfg ga).cvArg = .num cfg.CV_NUM) ∧
     (∀ s, ga.seed = some s → (gridResolve cfg ga).seed = s) ∧
     (ga.seed = none → (gridResolve cfg ga).seed = cfg.SEED) ∧
     (∀ s, ga.scoring = some s → (gridResolve cfg ga).scoring = some s) ∧
     (ga.scoring = none → (gridResolve cfg ga).scoring = cfg.SCORING) ∧
     (ga.fit_params ≠ [] →
       (gridResolve cfg ga).fit_params = ga.fit_params) ∧
     (ga.fit_params = [] →
       (gridResolve cfg ga).fit_params = cfg.FIT_PARAMS)) ∧
    ((∀ m, ra.cv_model = some m → (randomResolve cfg ra).cv_model = m) ∧
     (ra.cv_model = none → (randomResolve cfg ra).cv_model = cfg.CV_MODEL) ∧
     (∀ d, ra.cv_params = some d → (randomResolve cfg ra).cv_params = d) ∧
     (ra.cv_params = none →
       (randomResolve cfg ra).cv_params = cfg.CV_PARAMS_RANDOM) ∧
     (∀ c, ra.cv = some c → (randomResolve cfg ra).cvArg = c) ∧
     (ra.cv = none → (randomResolve cfg ra).cvArg = .num cfg.CV_NUM) ∧
     (∀ s, ra.seed = some s → (randomResolve cfg ra).seed = s) ∧
     (ra.seed = none → (randomResolve cfg ra).seed = cfg.SEED) ∧
     (∀ s, ra.scoring = some s → (randomResolve cfg ra).scoring = some s) ∧
     (ra.scoring = none → (randomResolve cfg ra).scoring = cfg.SCORING) ∧
     (∀ n, ra.n_iter = some n → (randomResolve cfg ra).n_iter = n) ∧
     (ra.n_iter = none → (randomResolve cfg ra).n_iter = cfg.N_ITER_RANDOM) ∧
     (ra.fit_params ≠ [] →
       (randomResolve cfg ra).fit_params = ra.fit_params) ∧
     (ra.fit_params = [] →
       (randomResolve cfg ra).fit_params = cfg.FIT_PARAMS)) ∧
    ((∀ m, ba.cv_model = some m → (bayesResolve cfg ba).cv_model = m) ∧
     (ba.cv_model = none → (bayesResolve cfg ba).cv_model = cfg.CV_MODEL) ∧
     (∀ d, ba.bayes_params = some d →
       (bayesResolve cfg ba).bayes_params = d) ∧
     (ba.bayes_params = none →
       (bayesResolve cfg ba).bayes_params = cfg.BAYES_PARAMS) ∧
     (∀ c, ba.cv = some c → (bayesResolve cfg ba).cvArg = c) ∧
     (ba.cv = none → (bayesResolve cfg ba).cvArg = .num cfg.CV_NUM) ∧
     (∀ s, ba.seed = some s → (bayesResolve cfg ba).seed = s) ∧
     (ba.seed = none → (bayesResolve cfg ba).seed = cfg.SEED) ∧
     (∀ s, ba.scoring = some s → (bayesResolve cfg ba).scoring = some s) ∧
     (ba.scoring = none → (bayesResolve cfg ba).scoring = cfg.SCORING) ∧
     (∀ n, ba.n_iter = some n → (bayesResolve cfg ba).n_iter = n) ∧
     (ba.n_iter = none → (bayesResolve cfg ba).n_iter = cfg.N_ITER_BAYES) ∧
     (∀ n, ba.init_points = some n →
       (bayesResolve cfg ba).init_points = n) ∧
     (ba.init_points = none →
       (bayesResolve cfg ba).init_points = cfg.INIT_POINTS) ∧
     (∀ s, ba.acq = some s → (bayesResolve cfg ba).acq = s) ∧
     (ba.acq = none → (bayesResolve cfg ba).acq = cfg.ACQ) ∧
     (∀ d, ba.bayes_not_opt_params = some d →
       (bayesResolve cfg ba).bayes_not_opt_params = d) ∧
     (ba.bayes_not_opt_params = none →
       (bayesResolve cfg ba).bayes_not_opt_params =
         cfg.BAYES_NOT_OPT_PARAMS) ∧
     (ba.fit_params ≠ [] →
       (bayesResolve cfg ba).fit_params = ba.fit_params) ∧
     (ba.fit_params = [] →
       (bayesResolve cfg ba).fit_params = cfg.FIT_PARAMS)) := by
  repeat' apply And.intro
  all_goals intros
  all_goals simp_all [gridResolve, randomResolve, bayesResolve]

/-- Witness for C1: one explicitly passed value of each kind and one
omitted one, against the SVM regressor family's configuration. -/
theorem C1_witness :
    (gridResolve svmRegressorConfig gaSeeded).seed = 7 ∧
    (gridResolve svmRegressorConfig gaSeeded).cv_params =
        svmRegressorConfig.CV_PARAMS_GRID ∧
    (randomResolve svmRegressorConfig randomArgsNone).n_iter =
        svmRegressorConfig.N_ITER_RANDOM ∧
    (bayesResolve svmRegressorConfig baAcq).acq = "ucb" ∧
    (bayesResolve svmRegressorConfig baAcq).init_points =
        svmRegressorConfig.INIT_POINTS ∧
    (bayesResolve svmRegressorConfig baAcq).bayes_not_opt_params =
        svmRegressorConfig.BAYES_NOT_OPT_PARAMS := by
  obtain ⟨⟨g1, g2, g3, g4, g5, g6, g7, g8, g9, g10, g11, g12⟩,
          ⟨r1, r2, r3, r4, r5, r6, r7, r8, r9, r10, r11, r12, r13, r14⟩,
          ⟨b1, b2, b3, b4, b5, b6, b7, b8, b9, b10, b11, b12, b13, b14,
           b15, b16, b17, b18, b19, b20⟩⟩ :=
    C1_argument_resolution svmRegressorConfig gaSeeded randomArgsNone baAcq
  exact ⟨g7 7 rfl, g4 rfl, r12 rfl, b15 "ucb" rfl, b14 rfl, b18 rfl⟩

/-- C3: in every search method, when the cross-validation argument
resolves to an integer `n` the splitter stored in the tuner state (and,
for grid/random search, handed to the back end) is
`KFold(n_splits=n, shuffle=True, random_state=<resolved seed>)`; when it
is already a splitter object, that object is stored and passed through
unchanged. -/
theorem C3_cv_splitter (cfg : FamilyConfig) (st : TunerState)
    (ga : GridArgs) (ra : RandomArgs) (ba : BayesArgs) (gbp rbp : Dict)
    (mp : List (String × ℚ)) (t : ℚ) :
    (∀ n, (gridResolve cfg ga).cvArg = .num n →
      (grid_search_tuning cfg st ga gbp).1.cv =
          some (.kfold { n_splits := n, shuffle := true,
                         random_state := some (gridResolve cfg ga).seed }) ∧
      (grid_search_tuning cfg st ga gbp).2.1.cv =
          .kfold { n_splits := n, shuffle := true,
                   random_state := some (gridResolve cfg ga).seed }) ∧
    (∀ s, (gridResolve cfg ga).cvArg = .split s →
      (grid_search_tuning cfg st ga gbp).1.cv = some s ∧
      (grid_search_tuning cfg st ga gbp).2.1.cv = s) ∧
    (∀ n, (randomResolve cfg ra).cvArg = .num n →
      (random_search_tuning cfg st ra rbp).1.cv =
          some (.kfold { n_splits := n, shuffle := true,
                         random_state := some (randomResolve cfg ra).seed }) ∧
      (random_search_tuning cfg st ra rbp).2.1.cv =
          .kfold { n_splits := n, shuffle := true,
                   random_state := some (randomResolve cfg ra).seed }) ∧
    (∀ s, (randomResolve cfg ra).cvArg = .split s →
      (random_search_tuning cfg st ra rbp).1.cv = some s ∧
      (random_search_tuning cfg st ra rbp).2.1.cv = s) ∧
    (∀ n, (bayesResolve cfg ba).cvArg = .num n →
      (bayes_opt_tuning cfg st ba mp t).midState.cv =
          some (.kfold { n_splits := n, shuffle := true,
                         random_state := some (bayesResolve cfg ba).seed })) ∧
    (∀ s, (bayesResolve cfg ba).cvArg = .split s →
      (bayes_opt_tuning cfg st ba mp t).midState.cv = some s) := by
  refine ⟨?_, ?_, ?_, ?_, ?_, ?_⟩
  · intro n h
    constructor
    · simp [grid_search_tuning, buildSplitter, h]
    · simp [grid_search_tuning, buildSplitter, h]
  · intro s h
    constructor
    · simp [grid_search_tuning, buildSplitter, h]
    · simp [grid_search_tuning, buildSplitter, h]
  · intro n h
    constructor
    · simp [random_search_tuning, buildSplitter, h]
    · simp [random_search_tuning, buildSplitter, h]
  · intro s h
    constructor
    · simp [random_search_tuning, buildSplitter, h]
    · simp [random_search_tuning, buildSplitter, h]
  · intro n h
    cases hpp : bayesPostProcess mp cfg.BAYES_NOT_OPT_PARAMS
        (bayesResolve cfg ba).seed
    all_goals simp [bayes_opt_tuning, buildSplitter, hpp, h]
  · intro s h
    cases hpp : bayesPostProcess mp cfg.BAYES_NOT_OPT_PARAMS
        (bayesResolve cfg ba).seed
    all_goals simp [bayes_opt_tuning, buildSplitter, hpp, h]

/-- Witness for C3: a fold count of 3 with seed 7 yields the shuffled
seeded 3-fold splitter, a caller splitter object passes through, and the
defaulted Bayesian call stores the 5-fold splitter seeded 42. -/
theorem C3_witness :
    (grid_search_tuning svmRegressorConfig demoTuner gaCV3 []).1.cv =
        some (.kfold { n_splits := 3, shuffle := true,
                       random_state := some 7 }) ∧
    (random_search_tuning svmRegressorConfig demoTuner raCVObj []).1.cv =
        some (.other "loo") ∧
    TunerState.cv (BayesOutcome.midState
        (bayes_opt_tuning svmRegressorConfig demoTuner bayesArgsNone [] 0)) =
      some (.kfold { n_splits := 5, shuffle := true,
                     random_state := some 42 }) := by
  obtain ⟨c1, c2, c3, c4, c5, c6⟩ :=
    C3_cv_splitter svmRegressorConfig demoTuner gaCV3 raCVObj bayesArgsNone
      [] [] [] 0
  exact ⟨(c1 3 rfl).1, (c4 (.other "loo") rfl).1, c5 5 rfl⟩

/-- Inversion of the successful Bayesian post-processing: a returned
mapping is the cast best point, updated with the class-level fixed
parameters, with `random_state` pinned last. -/
theorem bayesPostProcess_ok_shape (mp : List (String × ℚ)) (cno : Dict)
    (seed : Int) (d : Dict) (h : bayesPostProcess mp cno seed = .ok d) :
    ∃ bp2 : Dict,
      d = Dict.insert (Dict.update bp2 cno) "random_state"
            (.scalar (.int seed)) := by
  unfold bayesPostProcess at h
  cases h1 : lookupQ mp "min_child_weight" <;> rw [h1] at h
  · simp at h
  cases h2 : lookupQ mp "max_depth" <;> rw [h2] at h
  · simp at h
  simp only [Except.ok.injEq] at h
  exact ⟨_, h.symm⟩

/-- C2 counterexample: in `bayes_opt_tuning`, the range mapping handed
to the `BayesianOptimization` back end is the resolved `BAYES_PARAMS`
untouched — for the SVM regressor family's default call it contains no
`random_state` key, so the resolved seed is not injected into the
parameter grid handed to the search back end, contradicting the claim
for this search method. -/
theorem C2_counterexample :
    (bayes_opt_tuning svmRegressorConfig demoTuner bayesArgsNone
        [("gamma", 3), ("C", 3), ("epsilon", 0)] 0).call.pbounds =
      svmRegressorConfig.BAYES_PARAMS ∧
    Dict.get (bayes_opt_tuning svmRegressorConfig demoTuner bayesArgsNone
        [("gamma", 3), ("C", 3), ("epsilon", 0)] 0).call.pbounds
      "random_state" = none :=
  ⟨rfl, rfl⟩

/-- C2 amended: for `grid_search_tuning` and `random_search_tuning` the
resolved seed is injected into the grid handed to the back end as the
pinned single-value `random_state` parameter and therefore appears
unchanged in any best-parameter mapping the back end can select from
that grid; for `bayes_opt_tuning` the range mapping reaches the
optimizer unchanged — the seed is passed as the optimizer's own
`random_state` argument instead — and the seed is merged unchanged into
the returned best-parameter mapping after optimization. -/
theorem C2_amended_seed_pinning (cfg : FamilyConfig) (st : TunerState)
    (ga : GridArgs) (ra : RandomArgs) (ba : BayesArgs) (gbp rbp : Dict)
    (mp : List (String × ℚ)) (t : ℚ) :
    (Dict.get (grid_search_tuning cfg st ga gbp).2.1.cv_params
        "random_state" = some (.list [.int (gridResolve cfg ga).seed])) ∧
    (gridSelects (grid_search_tuning cfg st ga gbp).2.1.cv_params gbp =
        true →
      Dict.get gbp "random_state" =
        some (.scalar (.int (gridResolve cfg ga).seed))) ∧
    (Dict.get (random_search_tuning cfg st ra rbp).2.1.cv_params
        "random_state" = some (.list [.int (randomResolve cfg ra).seed])) ∧
    (gridSelects (random_search_tuning cfg st ra rbp).2.1.cv_params rbp =
        true →
      Dict.get rbp "random_state" =
        some (.scalar (.int (randomResolve cfg ra).seed))) ∧
    ((bayes_opt_tuning cfg st ba mp t).call.pbounds =
        (bayesResolve cfg ba).bayes_params) ∧
    ((bayes_opt_tuning cfg st ba mp t).call.random_state =
        (bayesResolve cfg ba).seed) ∧
    (∀ d, ((bayes_opt_tuning cfg st ba mp t).result.toOption.map
        (fun r => r.1)) = some d →
      Dict.get d "random_state" =
        some (.scalar (.int (bayesResolve cfg ba).seed))) := by
  have hg : (grid_search_tuning cfg st ga gbp).2.1.cv_params =
      Dict.insert (gridResolve cfg ga).cv_params "random_state"
        (.list [.int (gridResolve cfg ga).seed]) := rfl
  have hr : (random_search_tuning cfg st ra rbp).2.1.cv_params =
      Dict.insert (randomResolve cfg ra).cv_params "random_state"
        (.list [.int (randomResolve cfg ra).seed]) := rfl
  refine ⟨?_, ?_, ?_, ?_, ?_, ?_, ?_⟩
  · rw [hg]
    exact Dict.get_insert_self _ _ _
  · intro hsel
    obtain ⟨v, hv, hc⟩ := gridSelects_get _ gbp "random_state" _ hsel
      (by rw [hg]; exact Dict.get_insert_self _ _ _)
    have hveq : v = Scalar.int (gridResolve cfg ga).seed := by
      simpa using hc
    rw [hv, hveq]
  · rw [hr]
    exact Dict.get_insert_self _ _ _
  · intro hsel
    obtain ⟨v, hv, hc⟩ := gridSelects_get _ rbp "random_state" _ hsel
      (by rw [hr]; exact Dict.get_insert_self _ _ _)
    have hveq : v = Scalar.int (randomResolve cfg ra).seed := by
      simpa using hc
    rw [hv, hveq]
  · cases hpp : bayesPostProcess mp cfg.BAYES_NOT_OPT_PARAMS
        (bayesResolve cfg ba).seed
    all_goals simp [bayes_opt_tuning, hpp]
  · cases hpp : bayesPostProcess mp cfg.BAYES_NOT_OPT_PARAMS
        (bayesResolve cfg ba).seed
    all_goals simp [bayes_opt_tuning, hpp]
  · intro d hd
    cases hpp : bayesPostProcess mp cfg.BAYES_NOT_OPT_PARAMS
        (bayesResolve cfg ba).seed with
    | error e =>
        simp [bayes_opt_tuning, hpp, Except.toOption] at hd
    | ok bp =>
        simp [bayes_opt_tuning, hpp, Except.toOption] at hd
        obtain ⟨bp2, hshape⟩ := bayesPostProcess_ok_shape _ _ _ _ hpp
        rw [← hd, hshape]
        exact Dict.get_insert_self _ _ _

/-- Witness for C2 (amended): concrete grid, random and Bayesian runs of
the xgb-shaped family all return the pinned seed. -/
theorem C2_witness :
    Dict.get xgbGridBest "random_state" = some (.scalar (.int 7)) ∧
    Dict.get xgbRandBest "random_state" = some (.scalar (.int 42)) ∧
    Dict.get xgbBayesBest "random_state" = some (.scalar (.int 42)) := by
  obtain ⟨a1, a2, a3, a4, a5, a6, a7⟩ :=
    C2_amended_seed_pinning xgbLikeConfig demoTuner gaSeeded randomArgsNone
      bayesArgsNone xgbGridBest xgbRandBest xgbBayesPoint 0
  exact ⟨a2 (by decide), a4 (by decide), a7 xgbBayesBest rfl⟩

/-- C5: the int-cast step of `bayes_opt_tuning` is hardcoded to the keys
`min_child_weight` and `max_depth` instead of being driven by the
family's `INT_PARAMS` list: for the SVM regressor family — whose
`INT_PARAMS` is empty, so the claim requires no cast at all — the method
raises `KeyError` on the best point the optimizer reports over the
family's own ranges. -/
theorem C5_hardcoded_cast_fails :
    (bayes_opt_tuning svmRegressorConfig demoTuner bayesArgsNone
        [("gamma", 3), ("C", 3), ("epsilon", 0)] 0).result =
      .error "KeyError: min_child_weight" ∧
    svmRegressorConfig.INT_PARAMS = [] :=
  ⟨rfl, rfl⟩

/-- C6 counterexample: with a caller-supplied fixed-parameter mapping
(`booster='dart'`), the returned best-parameter mapping still carries
the class-level default (`booster='gbtree'`): the merge of line 313 uses
`self.BAYES_NOT_OPT_PARAMS`, not the resolved mapping. -/
theorem C6_counterexample :
    ((bayes_opt_tuning xgbLikeConfig demoTuner xgbCallerArgs xgbBayesPoint
        0).result.toOption.map (fun r => Dict.get r.1 "booster")) =
      some (some (.scalar (.str "gbtree"))) ∧
    (bayesResolve xgbLikeConfig xgbCallerArgs).bayes_not_opt_params =
      [("booster", .scalar (.str "dart"))] :=
  ⟨rfl, rfl⟩

/-- C6 amended: after a successful `bayes_opt_tuning`, the returned
best-parameter mapping merges in the class-level default fixed
parameters `BAYES_NOT_OPT_PARAMS` — not the resolved (possibly
caller-supplied) mapping, which only reaches the objective callback —
together with the resolved seed, and the fresh estimator refit stored as
best estimator uses exactly this final parameter set. -/
theorem C6_amended_fixed_params (cfg : FamilyConfig) (st : TunerState)
    (ba : BayesArgs) (mp : List (String × ℚ)) (t : ℚ) :
    ∀ d, ((bayes_opt_tuning cfg st ba mp t).result.toOption.map
        (fun r => r.1)) = some d →
      (∀ k v, (Dict.keys cfg.BAYES_NOT_OPT_PARAMS).Nodup →
        k ≠ "random_state" →
        Dict.get cfg.BAYES_NOT_OPT_PARAMS k = some v →
        Dict.get d k = some v) ∧
      Dict.get d "random_state" =
        some (.scalar (.int (bayesResolve cfg ba).seed)) ∧
      ((bayes_opt_tuning cfg st ba mp t).result.toOption.map
          (fun r => r.2.2.best_estimator_)) =
        some (some { model := (bayesResolve cfg ba).cv_model, params := d,
                     X := st.X, y := st.y,
                     fit_params := (bayesResolve cfg ba).fit_params }) := by
  intro d hd
  cases hpp : bayesPostProcess mp cfg.BAYES_NOT_OPT_PARAMS
      (bayesResolve cfg ba).seed with
  | error e =>
      simp [bayes_opt_tuning, hpp, Except.toOption] at hd
  | ok bp =>
      simp [bayes_opt_tuning, hpp, Except.toOption] at hd
      obtain ⟨bp2, hshape⟩ := bayesPostProcess_ok_shape _ _ _ _ hpp
      subst hd
      refine ⟨?_, ?_, ?_⟩
      · intro k v hnd hk hkv
        rw [hshape, Dict.get_insert_ne _ _ _ _ (Ne.symm hk)]
        exact Dict.get_update_of_mem _ _ _ _ hnd hkv
      · rw [hshape]
        exact Dict.get_insert_self _ _ _
      · simp [bayes_opt_tuning, hpp, Except.toOption]

/-- Witness for C6 (amended): the xgb-shaped family's successful run
carries the class-level `booster` value and the seed. -/
theorem C6_witness :
    Dict.get xgbBayesBest "booster" = some (.scalar (.str "gbtree")) ∧
    Dict.get xgbBayesBest "random_state" = some (.scalar (.int 42)) := by
  obtain ⟨hfix, hseed, hest⟩ :=
    C6_amended_fixed_params xgbLikeConfig demoTuner bayesArgsNone
      xgbBayesPoint 0 xgbBayesBest rfl
  exact ⟨hfix "booster" _ (by decide) (by decide) rfl, hseed⟩

/-- C4: each SVM `_bayes_evaluate` takes exactly the continuous
parameters named in the family's Bayesian range mapping and builds the
evaluated parameter set by (a) rounding each parameter declared
integer-valued to the nearest integer, (b) merging in the fixed
non-optimized parameters, (c) prefixing every parameter name with the
pipeline's learner-step name when the wrapped estimator is a named
pipeline (and leaving names untouched for a bare estimator), then
returns the mean of the cross-validated fold scores obtained with that
parameter set. -/
theorem C4_bayes_evaluate_contract (env : BayesEvalEnv)
    (cvs : Estimator → Dict → List ℚ) (gamma C epsilon : ℚ) :
    (Dict.keys [("gamma", PValue.scalar (.num gamma)),
                ("C", .scalar (.num C)),
                ("epsilon", .scalar (.num epsilon))] =
      Dict.keys svmRegressorConfig.BAYES_PARAMS) ∧
    (Dict.keys [("gamma", PValue.scalar (.num gamma)),
                ("C", .scalar (.num C))] =
      Dict.keys svmClassifierConfig.BAYES_PARAMS) ∧
    ((svmReg_bayes_evaluate env cvs gamma C epsilon).1 =
      add_learner_name env.cv_model
        (Dict.update
          (int_conversion [("gamma", .scalar (.num gamma)),
                           ("C", .scalar (.num C)),
                           ("epsilon", .scalar (.num epsilon))]
            env.int_params)
          env.bayes_not_opt_params)) ∧
    ((svmReg_bayes_evaluate env cvs gamma C epsilon).2 =
      listMean (cvs env.cv_model
        (svmReg_bayes_evaluate env cvs gamma C epsilon).1)) ∧
    ((svmCls_bayes_evaluate env cvs gamma C).1 =
      add_learner_name env.cv_model
        (Dict.update
          (int_conversion [("gamma", .scalar (.num gamma)),
                           ("C", .scalar (.num C))]
            env.int_params)
          env.bayes_not_opt_params)) ∧
    ((svmCls_bayes_evaluate env cvs gamma C).2 =
      listMean (cvs env.cv_model
        (svmCls_bayes_evaluate env cvs gamma C).1)) ∧
    ("epsilon" ∈ env.int_params →
      Dict.get (int_conversion [("gamma", .scalar (.num gamma)),
                                ("C", .scalar (.num C)),
                                ("epsilon", .scalar (.num epsilon))]
          env.int_params) "epsilon" =
        some (.scalar (.int (round epsilon)))) ∧
    ("epsilon" ∉ env.int_params →
      Dict.get (int_conversion [("gamma", .scalar (.num gamma)),
                                ("C", .scalar (.num C)),
                                ("epsilon", .scalar (.num epsilon))]
          env.int_params) "epsilon" =
        some (.scalar (.num epsilon))) ∧
    (∀ k v, (Dict.keys env.bayes_not_opt_params).Nodup →
      Dict.get env.bayes_not_opt_params k = some v →
      Dict.get (Dict.update
          (int_conversion [("gamma", .scalar (.num gamma)),
                           ("C", .scalar (.num C)),
                           ("epsilon", .scalar (.num epsilon))]
            env.int_params)
          env.bayes_not_opt_params) k = some v) ∧
    (∀ steps, env.cv_model = .pipeline steps →
      Dict.keys (svmReg_bayes_evaluate env cvs gamma C epsilon).1 =
        (Dict.keys (Dict.update
            (int_conversion [("gamma", .scalar (.num gamma)),
                             ("C", .scalar (.num C)),
                             ("epsilon", .scalar (.num epsilon))]
              env.int_params)
            env.bayes_not_opt_params)).map
          (fun k => learnerStep steps ++ "__" ++ k)) ∧
    (∀ nm, env.cv_model = .plain nm →
      (svmReg_bayes_evaluate env cvs gamma C epsilon).1 =
        Dict.update
          (int_conversion [("gamma", .scalar (.num gamma)),
                           ("C", .scalar (.num C)),
                           ("epsilon", .scalar (.num epsilon))]
            env.int_params)
          env.bayes_not_opt_params) := by
  refine ⟨rfl, rfl, rfl, rfl, rfl, rfl, ?_, ?_, ?_, ?_, ?_⟩
  · intro h
    have hbase : Dict.get [("gamma", PValue.scalar (.num gamma)),
        ("C", .scalar (.num C)), ("epsilon", .scalar (.num epsilon))]
        "epsilon" = some (.scalar (.num epsilon)) := rfl
    rw [get_int_conversion, hbase]
    simp [h, intConvertValue]
  · intro h
    have hbase : Dict.get [("gamma", PValue.scalar (.num gamma)),
        ("C", .scalar (.num C)), ("epsilon", .scalar (.num epsilon))]
        "epsilon" = some (.scalar (.num epsilon)) := rfl
    rw [get_int_conversion, hbase]
    simp [h]
  · intro k v hnd hkv
    exact Dict.get_update_of_mem _ _ _ _ hnd hkv
  · intro steps h
    have hP : (svmReg_bayes_evaluate env cvs gamma C epsilon).1 =
        add_learner_name env.cv_model
          (Dict.update
            (int_conversion [("gamma", .scalar (.num gamma)),
                             ("C", .scalar (.num C)),
                             ("epsilon", .scalar (.num epsilon))]
              env.int_params)
            env.bayes_not_opt_params) := rfl
    rw [hP, h]
    exact keys_add_learner_name_pipeline _ _
  · intro nm h
    have hP : (svmReg_bayes_evaluate env cvs gamma C epsilon).1 =
        add_learner_name env.cv_model
          (Dict.update
            (int_conversion [("gamma", .scalar (.num gamma)),
                             ("C", .scalar (.num C)),
                             ("epsilon", .scalar (.num epsilon))]
              env.int_params)
            env.bayes_not_opt_params) := rfl
    rw [hP, h]
    rfl

/-- Witness for C4: the concrete environment with `epsilon` declared
integer-valued, the `kernel` fixed parameter and the scaler+SVR
pipeline, at the point `(3, 3, 3)`. -/
theorem C4_witness :
    Dict.get (int_conversion [("gamma", PValue.scalar (.num 3)),
        ("C", .scalar (.num 3)), ("epsilon", .scalar (.num 3))]
        ["epsilon"]) "epsilon" =
      some (.scalar (.int (round (3 : ℚ)))) ∧
    Dict.get (Dict.update
        (int_conversion [("gamma", PValue.scalar (.num 3)),
          ("C", .scalar (.num 3)), ("epsilon", .scalar (.num 3))]
          ["epsilon"])
        [("kernel", .scalar (.str "rbf"))]) "kernel" =
      some (.scalar (.str "rbf")) ∧
    Dict.keys (svmReg_bayes_evaluate demoEvalEnv demoCVS 3 3 3).1 =
      (Dict.keys (Dict.update
          (int_conversion [("gamma", PValue.scalar (.num 3)),
            ("C", .scalar (.num 3)), ("epsilon", .scalar (.num 3))]
            ["epsilon"])
          [("kernel", .scalar (.str "rbf"))])).map
        (fun k => learnerStep ["scaler", "svr"] ++ "__" ++ k) := by
  obtain ⟨k1, k2, e1, e2, e3, e4, hround, hkeep, hmerge, hpipe, hplain⟩ :=
    C4_bayes_evaluate_contract demoEvalEnv demoCVS 3 3 3
  exact ⟨hround (by decide), hmerge "kernel" _ (by decide) rfl,
         hpipe ["scaler", "svr"] rfl⟩

end PTSpec
